import Mathlib

/-!
Verification development for the gat-cli repository: a shallow embedding of
the `gat` SDK (`src/gat/client.py`, `src/gat/data.py`) and the instruction
parsing of the command-line front end (`src/gat-cli.py`), together with
theorems settling the specification's claims about them.

Modelling conventions:
* JSON documents are the inductive `Json`; integers stand in for JSON
  numbers (no claim involves non-integer numerics).
* Python exceptions become the `PyError` sum: `GatError` carries its
  message; the library exceptions (`KeyError`, `TypeError`, `IndexError`,
  `json.JSONDecodeError`, `AttributeError`) are bare tags.
* Fallible Python expressions become `Except PyError` values; subscription,
  membership (`in`), iteration and `dict.get` are modelled with the exact
  Python semantics on each `Json` constructor.
* An HTTP response is a record of the fields the wrapper reads: status
  code, the optional `Content-Type` header, the body text, and the result
  of parsing the body as JSON (`Option Json`, `none` when `response.json()`
  would raise a decode error).
-/

set_option linter.unusedVariables false

namespace Gat

/-- JSON values, as produced by `response.json()`. -/
inductive Json where
  | null : Json
  | bool (b : Bool) : Json
  | num (n : Int) : Json
  | str (s : String) : Json
  | arr (xs : List Json) : Json
  | obj (kvs : List (String × Json)) : Json

/-- The exceptions the embedded code can raise.  `gatError` is the
repository's own `GatError` (src/gat/client.py line 29); the rest are the
Python built-ins / library exceptions reachable from the embedded code. -/
inductive PyError where
  | gatError (msg : String) : PyError
  | keyError : PyError
  | typeError : PyError
  | indexError : PyError
  | jsonDecodeError : PyError
  | attributeError : PyError
deriving DecidableEq

/-- Whether an exception is the repository's `GatError`. -/
def PyError.isGatError : PyError → Bool
  | .gatError _ => true
  | _ => false

/-- Python truthiness of a JSON value (`if x:`): `None`, `False`, `0`,
empty string, empty list and empty dict are falsy. -/
def pyTruthy : Json → Bool
  | .null => false
  | .bool b => b
  | .num n => n != 0
  | .str s => !s.isEmpty
  | .arr xs => !xs.isEmpty
  | .obj kvs => !kvs.isEmpty

/-- Substring containment on character lists: `needle` occurs contiguously
inside `hay`. -/
def charsInfix (needle : List Char) : List Char → Bool
  | [] => needle.isEmpty
  | c :: rest => needle.isPrefixOf (c :: rest) || charsInfix needle rest

/-- Python `needle in hay` on strings: substring containment. -/
def pySubstr (needle hay : String) : Bool :=
  charsInfix needle.toList hay.toList

/-- Python `s.startswith(p)`. -/
def pyStartsWith (s p : String) : Bool :=
  p.toList.isPrefixOf s.toList

/-- Python `s.endswith(p)`. -/
def pyEndsWith (s p : String) : Bool :=
  p.toList.isSuffixOf s.toList

/-- Left-to-right, non-overlapping replacement of a nonempty pattern, the
semantics of Python `s.replace(pat, rep)`.  The fuel argument (initially
the length of the string) only serves structural termination; it never
runs out because each step consumes at least one character.  The embedded
code only ever replaces the nonempty patterns "embedded_id=" and "Z"; for
an empty pattern this function is the identity, unlike Python. -/
def replaceAllAux (pat rep : List Char) : Nat → List Char → List Char
  | 0, s => s
  | _ + 1, [] => []
  | fuel + 1, c :: rest =>
    if !pat.isEmpty && pat.isPrefixOf (c :: rest) then
      rep ++ replaceAllAux pat rep fuel ((c :: rest).drop pat.length)
    else
      c :: replaceAllAux pat rep fuel rest

/-- Python `s.replace(pat, rep)` on strings (nonempty `pat`). -/
def pyReplaceStr (s pat rep : String) : String :=
  String.mk (replaceAllAux pat.toList rep.toList s.toList.length s.toList)

/-- Python `repr` of a JSON value, as interpolated by f-strings for
non-string values.  Simplification: Python picks the quote character by
content and escapes specials; the embedding always uses a single quote
(written via its hex escape) and does not escape. -/
def pyRepr : Json → String
  | .null => "None"
  | .bool true => "True"
  | .bool false => "False"
  | .num n => toString n
  | .str s => "\x27" ++ s ++ "\x27"
  | .arr xs => "[" ++ String.intercalate ", " (xs.attach.map (fun x => pyRepr x.1)) ++ "]"
  | .obj kvs =>
      "\x7b" ++
        String.intercalate ", "
          (kvs.attach.map (fun kv => "\x27" ++ kv.1.1 ++ "\x27: " ++ pyRepr kv.1.2)) ++
      "\x7d"
decreasing_by
  · have := List.sizeOf_lt_of_mem x.2
    simp only [Json.arr.sizeOf_spec] at *
    omega
  · have h1 := List.sizeOf_lt_of_mem kv.2
    have h2 : sizeOf kv.1.2 < sizeOf kv.1 := by
      rcases kv.1 with ⟨k, v⟩
      simp only [Prod.mk.sizeOf_spec]
      omega
    simp only [Json.obj.sizeOf_spec] at *
    omega

/-- Python `str` of a JSON value, as interpolated by f-strings. -/
def pyStr : Json → String
  | .str s => s
  | j => pyRepr j

/-- Python `key in j`: key membership for a dict, element membership for a
list (a string only equals string elements), substring test for a string,
`TypeError` otherwise. -/
def pythonIn (k : String) : Json → Except PyError Bool
  | .obj kvs => .ok (kvs.any (fun kv => kv.1 == k))
  | .arr xs => .ok (xs.any (fun x => match x with | .str s => s == k | _ => false))
  | .str s => .ok (pySubstr k s)
  | _ => .error .typeError

/-- Python `j[k]` with a string key: dict lookup (`KeyError` when absent),
`TypeError` on every other JSON value. -/
def jsonSubscript (j : Json) (k : String) : Except PyError Json :=
  match j with
  | .obj kvs =>
    match kvs.lookup k with
    | some v => .ok v
    | Option.none => .error .keyError
  | _ => .error .typeError

/-- Python `j[0]`: first element of a list (`IndexError` when empty), the
first character of a string as a one-character string, `KeyError` on a
string-keyed dict, `TypeError` otherwise. -/
def jsonIndex0 : Json → Except PyError Json
  | .arr [] => .error .indexError
  | .arr (x :: _) => .ok x
  | .str s =>
    match s.toList with
    | [] => .error .indexError
    | c :: _ => .ok (.str (String.mk [c]))
  | .obj _ => .error .keyError
  | _ => .error .typeError

/-- Python `j.get(k)` on a dict (`None` when absent); `AttributeError` on
non-dict values. -/
def jsonGet : Json → String → Except PyError Json
  | .obj kvs, k => .ok ((kvs.lookup k).getD Json.null)
  | _, _ => .error .attributeError

/-- Python iteration over a JSON value: list elements, string characters
(as one-character strings), dict keys; `TypeError` otherwise. -/
def jsonIter : Json → Except PyError (List Json)
  | .arr xs => .ok xs
  | .str s => .ok (s.toList.map (fun c => Json.str (String.mk [c])))
  | .obj kvs => .ok (kvs.map (fun kv => Json.str kv.1))
  | _ => .error .typeError

/-- Read a JSON value as a string.  The data-layer dataclasses annotate
these fields as `str`; the embedding enforces the annotation where the
Python runtime would silently store any value. -/
def asString : Json → Except PyError String
  | .str s => .ok s
  | _ => .error .typeError

/-- Read a JSON value as a boolean (enforcing the `bool` annotation). -/
def asBool : Json → Except PyError Bool
  | .bool b => .ok b
  | _ => .error .typeError

/-- Read a JSON value as an integer (enforcing the `int` annotation). -/
def asInt : Json → Except PyError Int
  | .num n => .ok n
  | _ => .error .typeError

/-- Read a JSON value as an optional string (`null` becomes `None`),
enforcing the `Optional[str]` annotation. -/
def asOptionalString : Json → Except PyError (Option String)
  | .null => .ok Option.none
  | .str s => .ok (some s)
  | _ => .error .typeError

/-- Encode an optional string as the JSON value Python's `json` module
produces for it (`None` becomes `null`). -/
def optStrJson : Option String → Json
  | Option.none => Json.null
  | some s => Json.str s

/-- The fields of an HTTP response that `GatApi.__call` reads: the status
code, the optional `Content-Type` response header, the body text
(`response.text`), and the result of `response.json()` (`none` when the
body is not valid JSON, in which case `response.json()` raises a decode
error). -/
structure HttpResponse where
  status : Nat
  contentType : Option String
  body : String
  json : Option Json

/-- What `GatApi.__call` returns on success: a parsed JSON document, the
raw body text, or Python `None` (for a 204 response). -/
inductive CallResult where
  | json (j : Json) : CallResult
  | text (s : String) : CallResult
  | none : CallResult

/-- Whether an `Except` value is an error (a raised exception). -/
def isErr {ε α : Type} : Except ε α → Bool
  | .error _ => true
  | .ok _ => false

/-- Whether a computation raised the repository's `GatError`
(as opposed to returning, or raising a Python built-in). -/
def raisesGatError {α : Type} : Except PyError α → Bool
  | .error e => e.isGatError
  | .ok _ => false

/-- Lines 71-77 of src/gat/client.py, entered for a 4xx response whose
body parsed as the JSON value `b`: when `b` contains "errors", combine the
first error's title with its optional detail into the `GatError` message;
otherwise fall through to the bare status-code `GatError`. -/
def clientErrorResult (status : Nat) (b : Json) : Except PyError CallResult :=
  match pythonIn "errors" b with
  | .error e => .error e
  | .ok false => .error (.gatError ("Call failed: " ++ toString status))
  | .ok true =>
    match jsonSubscript b "errors" with
    | .error e => .error e
    | .ok errs =>
      match jsonIndex0 errs with
      | .error e => .error e
      | .ok firstError =>
        match jsonSubscript firstError "title" with
        | .error e => .error e
        | .ok title =>
          match pythonIn "detail" firstError with
          | .error e => .error e
          | .ok false =>
            .error (.gatError ("Call failed: " ++ toString status ++ ": " ++ pyStr title))
          | .ok true =>
            match jsonSubscript firstError "detail" with
            | .error e => .error e
            | .ok detail =>
              .error (.gatError ("Call failed: " ++ toString status ++ ": " ++
                pyStr title ++ " - " ++ pyStr detail))

/-- `GatApi.__call`, lines 61-77 of src/gat/client.py: response
classification.  A 200/201 response first has the JSON:API media type
tested against its `Content-Type` header (a `KeyError` when the header is
absent, mirroring `response.headers["Content-Type"]`); a match returns the
parsed JSON (`response.json()`, a decode error when the body is not
JSON), otherwise the raw text is returned.  A 204 returns Python `None`.
A 4xx response has its body parsed and is dispatched on its "errors"
member; everything else raises the bare status-code `GatError`. -/
def call (r : HttpResponse) : Except PyError CallResult :=
  if r.status = 200 ∨ r.status = 201 then
    match r.contentType with
    | Option.none => .error .keyError
    | some ct =>
      if pySubstr "application/vnd.api+json" ct then
        match r.json with
        | some j => .ok (.json j)
        | Option.none => .error .jsonDecodeError
      else .ok (.text r.body)
  else if r.status = 204 then .ok .none
  else if 400 ≤ r.status ∧ r.status < 500 then
    match r.json with
    | Option.none => .error .jsonDecodeError
    | some b => clientErrorResult r.status b
  else .error (.gatError ("Call failed: " ++ toString r.status))

/-- Python subscription on the value `__call` returned
(`self.__call(...)["data"]` and the like): a dict lookup for a JSON
document, `TypeError` for text or `None`. -/
def callResultSubscript (c : CallResult) (k : String) : Except PyError Json :=
  match c with
  | .json j => jsonSubscript j k
  | .text _ => .error .typeError
  | .none => .error .typeError

/-!
The data model of src/gat/data.py.  Every dataclass there is declared
`frozen=True`, so values are immutable after construction; the structures
below mirror their fields.  The constant JSON:API `type` tags
(`init=False` fields) appear as the literal strings used by the encoding
functions.  `datetime.datetime` values only ever arise from
`GatApi.__parse_time`; the embedding keeps them abstract as `PyDateTime`.
-/

/-- Abstract stand-in for `datetime.datetime`: the embedding never
inspects parsed timestamps, it only passes them through. -/
structure PyDateTime where
  iso : String
deriving DecidableEq

/-- `Organization` (src/gat/data.py line 26). -/
structure Organization where
  id : String
  name : String
deriving DecidableEq

/-- `Application` (src/gat/data.py line 33). -/
structure Application where
  id : String
  name : String
  platform_name : String
deriving DecidableEq

/-- `Environment` (src/gat/data.py line 41). -/
structure Environment where
  id : String
  name : String
  url : String
deriving DecidableEq

/-- `NativeBuild` (src/gat/data.py line 49).  `original_file_name` is
annotated `str` in the source, but it is populated with
`attributes.get("appFileOriginalFilename")`, which yields `None` when the
key is absent, so the embedding gives it the `Option` type the code
actually produces. -/
structure NativeBuild where
  id : String
  name : String
  original_file_name : Option String
  external_vendor_url : Option String
  signing_status : Option String
deriving DecidableEq

/-- `InternetBrowser` (src/gat/data.py line 59). -/
structure InternetBrowser where
  id : String
  name : String
  operating_system_name : String
deriving DecidableEq

/-- `MobileDevice` (src/gat/data.py line 67). -/
structure MobileDevice where
  id : String
  name : String
  brand_name : String
deriving DecidableEq

/-- `TestCaseRunsBatchState` (src/gat/data.py line 75). -/
structure TestCaseRunsBatchState where
  id : String
  state : String
  total_count : Int
  in_progress_count : Int
  completed_count : Int
  failed_count : Int
  passed_count : Int
  cancelled_count : Int
deriving DecidableEq

/-- `TestCaseRunsBatchTestCaseRun` (src/gat/data.py line 88). -/
structure TestCaseRunsBatchTestCaseRun where
  id : String
  name : String
  ada_url : String
  failed_results_count : Int
  passed_results_count : Int
  total_results_count : Int
deriving DecidableEq

/-- `TestCaseRunsBatchSummary` (src/gat/data.py line 99). -/
structure TestCaseRunsBatchSummary where
  id : String
  name : String
  start_time : Option PyDateTime
  finish_time : Option PyDateTime
  test_case_credits : Int
  testers_involved : Int
  application_id : String
  environment_id : String
  test_case_runs : List TestCaseRunsBatchTestCaseRun
deriving DecidableEq

/-- `TestCaseRunsBatch` (src/gat/data.py line 113). -/
structure TestCaseRunsBatch where
  id : String
deriving DecidableEq

/-- `TestCaseInstruction` (src/gat/data.py line 119); JSON:API type tag
"testCaseInstruction". -/
structure TestCaseInstruction where
  id : String
  content : String
  assertion : Bool
deriving DecidableEq

/-- `EmbeddedTestCase` (src/gat/data.py line 127); JSON:API type tag
"testCase". -/
structure EmbeddedTestCase where
  id : String
deriving DecidableEq

/-- The `Union[TestCaseInstruction, EmbeddedTestCase]` element type of
`TestCase.instructions`. -/
inductive Instruction where
  | instr (i : TestCaseInstruction) : Instruction
  | embedded (e : EmbeddedTestCase) : Instruction
deriving DecidableEq

/-- The `type` tag of an instruction union member, the `init=False` field
consulted by `GatApi.create_test_cases`. -/
def Instruction.type : Instruction → String
  | .instr _ => "testCaseInstruction"
  | .embedded _ => "testCase"

/-- Observation of an instruction union member: the content of a plain
instruction (`None` for an embedded test case). -/
def Instruction.contentOf : Instruction → Option String
  | .instr i => some i.content
  | .embedded _ => Option.none

/-- Observation of an instruction union member: the assertion flag of a
plain instruction (`None` for an embedded test case). -/
def Instruction.assertionOf : Instruction → Option Bool
  | .instr i => some i.assertion
  | .embedded _ => Option.none

/-- `TestCase` (src/gat/data.py line 133); JSON:API type tag "testCase".
The source field `section` is a Lean keyword, hence the primed name. -/
structure TestCase where
  id : String
  title : String
  importance : Option String
  section' : Option String
  instructions : List Instruction
deriving DecidableEq

/-- `Country` (src/gat/data.py line 143). -/
structure Country where
  id : String
  name : String
  code : String
  available_platforms : List String
deriving DecidableEq

/-- `TestCaseRun.Variation.TestCaseRunResult` (src/gat/data.py line 167).
`reported_at` is produced by `GatApi.__parse_time`, hence optional. -/
structure TestCaseRunResult where
  outcome : String
  attachment_url : Option String
  tester_comment : String
  steps_to_reproduce : List String
  reported_at : Option PyDateTime
  country : String
deriving DecidableEq

/-- `TestCaseRun.Variation` (src/gat/data.py line 162). -/
structure Variation where
  name : String
  results : List TestCaseRunResult
deriving DecidableEq

/-- `TestCaseRun` (src/gat/data.py line 152). -/
structure TestCaseRun where
  id : String
  test_case_name : String
  test_case_section : String
  test_case_importance : String
  ada_url : String
  variations : List Variation
deriving DecidableEq

/-!
Client-side lookup-by-id, lines 93-97, 105-109 and 144-148 of
src/gat/client.py.  Each method fetches the full collection and takes the
first record of it whose `id` equals the requested one
(`next(x for x in collection if x.id == id)`), raising a not-found
`GatError` when the scan is exhausted.  The embedding takes the fetched
collection as its list argument.
-/

/-- `GatApi.application_by_id` over the fetched application list. -/
def application_by_id (applications : List Application) (i : String) :
    Except PyError Application :=
  match applications.find? (fun a => a.id == i) with
  | some a => .ok a
  | Option.none => .error (.gatError ("No application with ID " ++ i))

/-- `GatApi.environment_by_id` over the fetched environment list. -/
def environment_by_id (environments : List Environment) (i : String) :
    Except PyError Environment :=
  match environments.find? (fun e => e.id == i) with
  | some e => .ok e
  | Option.none => .error (.gatError ("No environment with ID " ++ i))

/-- `GatApi.native_build_by_id` over the fetched native-build list. -/
def native_build_by_id (builds : List NativeBuild) (i : String) :
    Except PyError NativeBuild :=
  match builds.find? (fun b => b.id == i) with
  | some b => .ok b
  | Option.none => .error (.gatError ("No native build with ID " ++ i))

/-!
`GatApi.test_cases`, lines 289-300 of src/gat/client.py: map each
resource object of the list response to a `TestCase` record.  The source
populates only `id` and `title`; `importance`, `section` and
`instructions` are hard-coded to `None`, `None` and `[]` (the TODO at
line 291 says to populate them "when available").
-/

/-- The comprehension body of `GatApi.test_cases` on one resource
object. -/
def test_case_of_json (tc : Json) : Except PyError TestCase := do
  let i ← jsonSubscript tc "id" >>= asString
  let attrs ← jsonSubscript tc "attributes"
  let t ← jsonSubscript attrs "title" >>= asString
  .ok ⟨i, t, Option.none, Option.none, []⟩

/-- `GatApi.test_cases` applied to the HTTP response of the test-case
list endpoint. -/
def test_cases (r : HttpResponse) : Except PyError (List TestCase) := do
  let c ← call r
  let d ← callResultSubscript c "data"
  let items ← jsonIter d
  items.mapM test_case_of_json

/-!
Update operations, lines 122-130 and 153-166 of src/gat/client.py.  Each
issues a PATCH (the `application`/`environment`/`native_build` arguments
and the `name`/`url` arguments only shape the request URL and body) and
builds a fresh record from the response document.  The embedding takes
the PATCH response as an explicit argument.
-/

/-- `GatApi.update_environment`: map the PATCH response to a new
`Environment` record. -/
def update_environment (application : Application) (environment : Environment)
    (name url : String) (r : HttpResponse) : Except PyError Environment := do
  let c ← call r
  let d ← callResultSubscript c "data"
  let i ← jsonSubscript d "id" >>= asString
  let attrs ← jsonSubscript d "attributes"
  let n ← jsonSubscript attrs "name" >>= asString
  let u ← jsonSubscript attrs "url" >>= asString
  .ok ⟨i, n, u⟩

/-- `GatApi.update_native_build`: map the PATCH response to a new
`NativeBuild` record. -/
def update_native_build (application : Application) (native_build : NativeBuild)
    (name : String) (r : HttpResponse) : Except PyError NativeBuild := do
  let c ← call r
  let d ← callResultSubscript c "data"
  let i ← jsonSubscript d "id" >>= asString
  let attrs ← jsonSubscript d "attributes"
  let n ← jsonSubscript attrs "name" >>= asString
  let ofn ← jsonGet attrs "appFileOriginalFilename" >>= asOptionalString
  let evu ← jsonGet attrs "externalVendorUrl" >>= asOptionalString
  let ss ← jsonSubscript attrs "signingStatus" >>= asOptionalString
  .ok ⟨i, n, ofn, evu, ss⟩

/-!
`GatApi.create_test_cases`, lines 308-344 of src/gat/client.py: encode
the given test cases into the import payload, POST it, and map the
response documents back to `TestCase` records.
-/

/-- The request encoding of one instruction (lines 318-323): an embedded
test case (`type == "testCase"`) becomes a type/id reference, a plain
instruction becomes a type/attributes object carrying its content and
assertion flag. -/
def encodeInstruction : Instruction → Json
  | .embedded e => .obj [("type", .str "testCase"), ("id", .str e.id)]
  | .instr i =>
      .obj [("type", .str "testCaseInstruction"),
            ("attributes", .obj [("content", .str i.content),
                                 ("assertion", .bool i.assertion)])]

/-- The request encoding of one test case (lines 310-326). -/
def encodeTestCase (tc : TestCase) : Json :=
  .obj [("type", .str "testCase"),
        ("attributes", .obj [
          ("title", .str tc.title),
          ("importance", optStrJson tc.importance),
          ("section", optStrJson tc.section'),
          ("instructions", .arr (tc.instructions.map encodeInstruction))])]

/-- The full import request payload (`json_data={"data": data}`,
line 342). -/
def create_test_cases_payload (tcs : List TestCase) : Json :=
  .obj [("data", .arr (tcs.map encodeTestCase))]

/-- The response mapping of one instruction (lines 335-337). -/
def decodeInstruction (j : Json) : Except PyError TestCaseInstruction := do
  let i ← jsonSubscript j "id" >>= asString
  let attrs ← jsonSubscript j "attributes"
  let c ← jsonSubscript attrs "content" >>= asString
  let a ← jsonSubscript attrs "assertion" >>= asBool
  .ok ⟨i, c, a⟩

/-- The response mapping of one test case (lines 329-340). -/
def decodeTestCase (j : Json) : Except PyError TestCase := do
  let i ← jsonSubscript j "id" >>= asString
  let attrs ← jsonSubscript j "attributes"
  let t ← jsonSubscript attrs "title" >>= asString
  let im ← jsonSubscript attrs "importance" >>= asOptionalString
  let se ← jsonSubscript attrs "section" >>= asOptionalString
  let insJson ← jsonSubscript attrs "instructions"
  let insItems ← jsonIter insJson
  let ins ← insItems.mapM decodeInstruction
  .ok ⟨i, t, im, se, ins.map Instruction.instr⟩

/-- The response side of `GatApi.create_test_cases`: map the POST
response of the import endpoint back to `TestCase` records. -/
def create_test_cases_decode (r : HttpResponse) : Except PyError (List TestCase) := do
  let c ← call r
  let d ← callResultSubscript c "data"
  let items ← jsonIter d
  items.mapM decodeTestCase

/-- Modelled from the spec: the test-case import endpoint's echoed
response for one submitted instruction.  The server is external to the
repository; per the spec's round-trip property, its response document
echoes each submitted instruction object, with a server-assigned id
added. -/
def echoInstruction (newId : String) : Json → Json
  | .obj kvs => .obj (("id", .str newId) :: kvs)
  | j => j

/-- Modelled from the spec: the test-case import endpoint's echoed
response for one submitted test case, assigning `tcId` to the test case
and `instrIds` (positionally) to its instructions, echoing the submitted
attributes otherwise. -/
def echoTestCase (tcId : String) (instrIds : List String) : Json → Json
  | .obj [("type", t),
          ("attributes", .obj [("title", ti), ("importance", im), ("section", se),
                               ("instructions", .arr ins)])] =>
      .obj [("id", .str tcId), ("type", t),
            ("attributes", .obj [("title", ti), ("importance", im), ("section", se),
                                 ("instructions",
                                  .arr (List.zipWith echoInstruction instrIds ins))])]
  | j => j

/-!
The instruction parsing of the `create-test-case` command, lines 447-452
of src/gat-cli.py: an argument starting with "embedded_id=" becomes an
`EmbeddedTestCase` whose id is the argument with every occurrence of
"embedded_id=" replaced by the empty string; any other argument becomes a
new `TestCaseInstruction` whose assertion flag records whether the text
ends with a question mark.
-/

/-- The comprehension body of `create_test_case` on one instruction
argument. -/
def parse_instruction_text (s : String) : Instruction :=
  if pyStartsWith s "embedded_id=" then
    .embedded ⟨pyReplaceStr s "embedded_id=" ""⟩
  else
    .instr ⟨"new", s, pyEndsWith s "?"⟩

/-!
`GatApi.__parse_time`, lines 79-81 of src/gat/client.py:
`datetime.fromisoformat(s.replace("Z", "+00:00")) if s else None`.  The
argument is the raw JSON attribute value (Python `None` for JSON null).
`datetime.datetime.fromisoformat` is Python standard library, kept
abstract as the `fromiso` parameter (it raises `ValueError` on text it
rejects, which the parameter can model by returning an error). -/
def parse_time (fromiso : String → Except PyError PyDateTime) (j : Json) :
    Except PyError (Option PyDateTime) :=
  if pyTruthy j then
    match j with
    | .str s => (fromiso (pyReplaceStr s "Z" "+00:00")).map some
    | _ => .error .attributeError
  else .ok Option.none

/-- The comprehension body of `GatApi.test_case_runs_batch_summary` on
one included test-case-run object (lines 251-258). -/
def batch_run_of_json (j : Json) : Except PyError TestCaseRunsBatchTestCaseRun := do
  let i ← jsonSubscript j "id" >>= asString
  let attrs ← jsonSubscript j "attributes"
  let n ← jsonSubscript attrs "name" >>= asString
  let ada ← jsonSubscript attrs "adaUrl" >>= asString
  let f ← jsonSubscript attrs "failedResultsCount" >>= asInt
  let p ← jsonSubscript attrs "passedResultsCount" >>= asInt
  let tot ← jsonSubscript attrs "totalResultsCount" >>= asInt
  .ok ⟨i, n, ada, f, p, tot⟩

/-- `GatApi.test_case_runs_batch_summary`, lines 237-261 of
src/gat/client.py, applied to the HTTP response of the summary
endpoint. -/
def test_case_runs_batch_summary (fromiso : String → Except PyError PyDateTime)
    (r : HttpResponse) : Except PyError TestCaseRunsBatchSummary := do
  let c ← call r
  let d ← callResultSubscript c "data"
  let i ← jsonSubscript d "id" >>= asString
  let attrs ← jsonSubscript d "attributes"
  let n ← jsonSubscript attrs "name" >>= asString
  let stRaw ← jsonSubscript attrs "startTime"
  let st ← parse_time fromiso stRaw
  let ftRaw ← jsonSubscript attrs "finishTime"
  let ft ← parse_time fromiso ftRaw
  let credits ← jsonSubscript attrs "testCaseCredits" >>= asInt
  let testers ← jsonSubscript attrs "testersInvolved" >>= asInt
  let rels ← jsonSubscript d "relationships"
  let appId ← jsonSubscript rels "application" >>= (jsonSubscript · "data") >>=
    (jsonSubscript · "id") >>= asString
  let envId ← jsonSubscript rels "environment" >>= (jsonSubscript · "data") >>=
    (jsonSubscript · "id") >>= asString
  let included ← callResultSubscript c "included"
  let included0 ← jsonIndex0 included
  let runsJson ← jsonSubscript included0 "data"
  let runItems ← jsonIter runsJson
  let runs ← runItems.mapM batch_run_of_json
  .ok ⟨i, n, st, ft, credits, testers, appId, envId, runs⟩

/-!
Helper lemmas shared by the claim theorems.
-/

/-- Binding a successful `Except` value applies the continuation. -/
theorem ok_bind {ε α β : Type} (a : α) (f : α → Except ε β) :
    (Except.ok a : Except ε α) >>= f = f a := rfl

/-- Every path through the 4xx error branch of `__call` raises. -/
theorem clientErrorResult_isErr (status : Nat) (b : Json) :
    isErr (clientErrorResult status b) = true := by
  unfold clientErrorResult
  repeat' split
  all_goals rfl

/-- In a list whose ids are pairwise distinct, `find?` by id returns the
member carrying the requested id. -/
theorem find_by_id_unique {α : Type} (idOf : α → String) (l : List α)
    (hp : l.Pairwise (fun a b => idOf a ≠ idOf b)) (a : α) (ha : a ∈ l)
    (i : String) (hid : idOf a = i) :
    l.find? (fun x => idOf x == i) = some a := by
  induction l with
  | nil => cases ha
  | cons x xs ih =>
    rw [List.pairwise_cons] at hp
    rcases List.mem_cons.mp ha with h | h
    · subst h
      rw [List.find?_cons_of_pos]
      simp [hid]
    · have hx : (idOf x == i) = false := by
        simp only [beq_eq_false_iff_ne]
        intro hxi
        exact (hp.1 a h) (hxi.trans hid.symm)
      rw [List.find?_cons_of_neg _ (by simp [hx])]
      exact ih hp.2 h

/-- `find?` returns the head of the filtered list: the first match in
collection order. -/
theorem find?_eq_head?_filter {α : Type} (p : α → Bool) (l : List α) :
    l.find? p = (l.filter p).head? := by
  induction l with
  | nil => rfl
  | cons x xs ih =>
    by_cases h : p x
    · rw [List.find?_cons_of_pos _ h, List.filter_cons_of_pos h]
      rfl
    · rw [List.find?_cons_of_neg _ (by simp [h]), List.filter_cons_of_neg (by simp [h])]
      exact ih

/-- A key reported present by Python's `in` on a dict is found by
lookup. -/
theorem lookup_of_any {kvs : List (String × Json)} {k : String}
    (h : kvs.any (fun kv => kv.1 == k) = true) : ∃ v, kvs.lookup k = some v := by
  induction kvs with
  | nil => simp at h
  | cons kv rest ih =>
    by_cases hk : kv.1 == k
    · have hk' : (k == kv.1) = true := by
        have he := eq_of_beq hk
        simp [he]
      exact ⟨kv.2, by simp [List.lookup, hk']⟩
    · simp only [List.any_cons, hk, Bool.false_or] at h
      rcases ih h with ⟨v, hv⟩
      have hk' : (k == kv.1) = false := by
        cases hbk : k == kv.1
        · rfl
        · exact absurd (by simp [eq_of_beq hbk]) hk
      exact ⟨v, by simp [List.lookup, hk', hv]⟩

/-- `application_by_id` finds the record with the requested id when the
fetched ids are distinct. -/
theorem application_by_id_found (l : List Application)
    (hp : l.Pairwise (fun a b => a.id ≠ b.id)) (a : Application) (ha : a ∈ l)
    (i : String) (hid : a.id = i) : application_by_id l i = .ok a := by
  rw [application_by_id, find_by_id_unique Application.id l hp a ha i hid]

/-- `application_by_id` raises the not-found `GatError` naming the
requested id when no fetched record carries it. -/
theorem application_by_id_not_found (l : List Application) (i : String)
    (h : ∀ a ∈ l, a.id ≠ i) :
    application_by_id l i = .error (.gatError ("No application with ID " ++ i)) := by
  rw [application_by_id, List.find?_eq_none.mpr (fun x hx => by simp [h x hx])]

/-- `environment_by_id` finds the record with the requested id when the
fetched ids are distinct. -/
theorem environment_by_id_found (l : List Environment)
    (hp : l.Pairwise (fun a b => a.id ≠ b.id)) (e : Environment) (he : e ∈ l)
    (i : String) (hid : e.id = i) : environment_by_id l i = .ok e := by
  rw [environment_by_id, find_by_id_unique Environment.id l hp e he i hid]

/-- `environment_by_id` raises the not-found `GatError` naming the
requested id when no fetched record carries it. -/
theorem environment_by_id_not_found (l : List Environment) (i : String)
    (h : ∀ e ∈ l, e.id ≠ i) :
    environment_by_id l i = .error (.gatError ("No environment with ID " ++ i)) := by
  rw [environment_by_id, List.find?_eq_none.mpr (fun x hx => by simp [h x hx])]

/-- `native_build_by_id` finds the record with the requested id when the
fetched ids are distinct. -/
theorem native_build_by_id_found (l : List NativeBuild)
    (hp : l.Pairwise (fun a b => a.id ≠ b.id)) (nb : NativeBuild) (hnb : nb ∈ l)
    (i : String) (hid : nb.id = i) : native_build_by_id l i = .ok nb := by
  rw [native_build_by_id, find_by_id_unique NativeBuild.id l hp nb hnb i hid]

/-- `native_build_by_id` raises the not-found `GatError` naming the
requested id when no fetched record carries it. -/
theorem native_build_by_id_not_found (l : List NativeBuild) (i : String)
    (h : ∀ b ∈ l, b.id ≠ i) :
    native_build_by_id l i = .error (.gatError ("No native build with ID " ++ i)) := by
  rw [native_build_by_id, List.find?_eq_none.mpr (fun x hx => by simp [h x hx])]

/-!
The claims.
-/

/-- Claim C1, amended.  The original claim fails on responses the code
cannot classify without raising (see the counterexample): as amended, a
200/201 response with a `Content-Type` header containing the JSON:API
media type and a JSON-parseable body returns the parsed body; a 200/201
response with a header not containing the media type returns the raw
text; a 200/201 response lacking the header raises (a key lookup error),
as does a 200/201 JSON:API response whose body does not parse (a JSON
decode error); a 204 returns no value and raises no error; every other
status raises an error. -/
theorem claim_C1_amended (r : HttpResponse) :
    ((r.status = 200 ∨ r.status = 201) →
       (∀ ct j, r.contentType = some ct →
          pySubstr "application/vnd.api+json" ct = true →
          r.json = some j → call r = .ok (.json j))
     ∧ (∀ ct, r.contentType = some ct →
          pySubstr "application/vnd.api+json" ct = false →
          call r = .ok (.text r.body))
     ∧ (r.contentType = Option.none → call r = .error .keyError)
     ∧ (∀ ct, r.contentType = some ct →
          pySubstr "application/vnd.api+json" ct = true →
          r.json = Option.none → call r = .error .jsonDecodeError))
  ∧ (¬(r.status = 200 ∨ r.status = 201) → r.status = 204 → call r = .ok .none)
  ∧ (¬(r.status = 200 ∨ r.status = 201) → r.status ≠ 204 →
       isErr (call r) = true) := by
  refine ⟨fun h2 => ⟨?_, ?_, ?_, ?_⟩, ?_, ?_⟩
  · intro ct j hct hmedia hjson
    rw [call, if_pos h2]
    simp [hct, hmedia, hjson]
  · intro ct hct hmedia
    rw [call, if_pos h2]
    simp [hct, hmedia]
  · intro hct
    rw [call, if_pos h2]
    simp [hct]
  · intro ct hct hmedia hjson
    rw [call, if_pos h2]
    simp [hct, hmedia, hjson]
  · intro hn h204
    rw [call, if_neg hn, if_pos h204]
  · intro hn h204
    simp only [call, if_neg hn, if_neg h204]
    by_cases h4 : 400 ≤ r.status ∧ r.status < 500
    · rw [if_pos h4]
      cases hj : r.json with
      | none => rfl
      | some b => exact clientErrorResult_isErr r.status b
    · rw [if_neg h4]
      rfl

/-- Claim C1, counterexample.  A 200 response declaring the JSON:API
media type whose body is not valid JSON raises a JSON decode error
instead of returning a parsed body; a 200 response without a
`Content-Type` header raises a key lookup error instead of returning the
raw text. -/
theorem claim_C1_counterexample :
    call ⟨200, some "application/vnd.api+json", "oops", Option.none⟩
      = .error .jsonDecodeError
  ∧ isErr (call ⟨200, some "application/vnd.api+json", "oops", Option.none⟩) = true
  ∧ call ⟨200, Option.none, "hello", Option.none⟩ = .error .keyError
  ∧ call ⟨200, Option.none, "hello", Option.none⟩ ≠ .ok (.text "hello") := by
  refine ⟨rfl, rfl, rfl, fun h => ?_⟩
  exact Except.noConfusion h

/-- Claim C1, witness: the amended classification at concrete responses,
one per branch. -/
theorem claim_C1_witness :
    call ⟨200, some "application/vnd.api+json; charset=utf-8", "",
        some (Json.obj [("data", Json.arr [])])⟩
      = .ok (.json (Json.obj [("data", Json.arr [])]))
  ∧ call ⟨201, some "text/plain", "pong", Option.none⟩ = .ok (.text "pong")
  ∧ call ⟨204, some "text/plain", "", Option.none⟩ = .ok .none
  ∧ isErr (call ⟨500, Option.none, "", Option.none⟩) = true := by
  refine ⟨?_, ?_, ?_, ?_⟩
  · exact ((claim_C1_amended _).1 (Or.inl rfl)).1
      "application/vnd.api+json; charset=utf-8" _ rfl (by decide) rfl
  · exact ((claim_C1_amended _).1 (Or.inr rfl)).2.1 "text/plain" rfl (by decide)
  · exact (claim_C1_amended _).2.1 (by decide) rfl
  · exact (claim_C1_amended _).2.2 (by decide) (by decide)

/-- Claim C2: a 4xx response whose parsed body carries an "errors" array
whose first element has a string title and no detail raises the
`GatError` with message "Call failed: status: title"; with a string
detail as well, "Call failed: status: title - detail". -/
theorem claim_C2 (r : HttpResponse) (b e0 : Json) (rest : List Json)
    (t : String) (od : Option String)
    (h400 : 400 ≤ r.status) (h500 : r.status < 500)
    (hjson : r.json = some b)
    (hin : pythonIn "errors" b = .ok true)
    (herrs : jsonSubscript b "errors" = .ok (.arr (e0 :: rest)))
    (htitle : jsonSubscript e0 "title" = .ok (.str t))
    (hdetail : match od with
      | Option.none => pythonIn "detail" e0 = .ok false
      | some d => pythonIn "detail" e0 = .ok true ∧
          jsonSubscript e0 "detail" = .ok (.str d)) :
    call r = .error (.gatError (match od with
      | Option.none => "Call failed: " ++ toString r.status ++ ": " ++ t
      | some d => "Call failed: " ++ toString r.status ++ ": " ++ t ++ " - " ++ d)) := by
  have hn2xx : ¬(r.status = 200 ∨ r.status = 201) := by omega
  have hn204 : r.status ≠ 204 := by omega
  rw [call, if_neg hn2xx, if_neg hn204, if_pos (And.intro h400 h500), hjson]
  show clientErrorResult r.status b = _
  rw [clientErrorResult, hin]
  simp only [herrs, jsonIndex0, htitle]
  cases od with
  | none => simp only [hdetail, pyStr]
  | some d => simp only [hdetail.1, hdetail.2, pyStr]

/-- Claim C2, witness: concrete 404 and 422 responses, the first without
a detail, the second with one. -/
theorem claim_C2_witness :
    call ⟨404, some "application/vnd.api+json", "",
        some (Json.obj [("errors", Json.arr [Json.obj [("title", Json.str "Not found")]])])⟩
      = .error (.gatError "Call failed: 404: Not found")
  ∧ call ⟨422, some "application/vnd.api+json", "",
        some (Json.obj [("errors", Json.arr [Json.obj [("title", Json.str "Bad"),
          ("detail", Json.str "very bad")]])])⟩
      = .error (.gatError "Call failed: 422: Bad - very bad") := by
  constructor
  · exact claim_C2
      ⟨404, some "application/vnd.api+json", "",
        some (Json.obj [("errors", Json.arr [Json.obj [("title", Json.str "Not found")]])])⟩
      (Json.obj [("errors", Json.arr [Json.obj [("title", Json.str "Not found")]])])
      (Json.obj [("title", Json.str "Not found")]) [] "Not found" Option.none
      (by decide) (by decide) rfl rfl rfl rfl rfl
  · exact claim_C2
      ⟨422, some "application/vnd.api+json", "",
        some (Json.obj [("errors", Json.arr [Json.obj [("title", Json.str "Bad"),
          ("detail", Json.str "very bad")]])])⟩
      (Json.obj [("errors", Json.arr [Json.obj [("title", Json.str "Bad"),
        ("detail", Json.str "very bad")]])])
      (Json.obj [("title", Json.str "Bad"), ("detail", Json.str "very bad")]) []
      "Bad" (some "very bad")
      (by decide) (by decide) rfl rfl rfl rfl ⟨rfl, rfl⟩

/-- Claim C3: over a fetched collection with pairwise-distinct ids, each
lookup-by-id returns the record carrying the requested id when present
and raises the not-found `GatError` naming the requested id otherwise. -/
theorem claim_C3 :
    (∀ (l : List Application) (i : String) (a : Application),
       l.Pairwise (fun x y => x.id ≠ y.id) → a ∈ l → a.id = i →
       application_by_id l i = .ok a)
  ∧ (∀ (l : List Application) (i : String),
       l.Pairwise (fun x y => x.id ≠ y.id) → (∀ a ∈ l, a.id ≠ i) →
       application_by_id l i = .error (.gatError ("No application with ID " ++ i)))
  ∧ (∀ (l : List Environment) (i : String) (e : Environment),
       l.Pairwise (fun x y => x.id ≠ y.id) → e ∈ l → e.id = i →
       environment_by_id l i = .ok e)
  ∧ (∀ (l : List Environment) (i : String),
       l.Pairwise (fun x y => x.id ≠ y.id) → (∀ e ∈ l, e.id ≠ i) →
       environment_by_id l i = .error (.gatError ("No environment with ID " ++ i)))
  ∧ (∀ (l : List NativeBuild) (i : String) (nb : NativeBuild),
       l.Pairwise (fun x y => x.id ≠ y.id) → nb ∈ l → nb.id = i →
       native_build_by_id l i = .ok nb)
  ∧ (∀ (l : List NativeBuild) (i : String),
       l.Pairwise (fun x y => x.id ≠ y.id) → (∀ b ∈ l, b.id ≠ i) →
       native_build_by_id l i = .error (.gatError ("No native build with ID " ++ i))) :=
  ⟨fun l i a hp ha hid => application_by_id_found l hp a ha i hid,
   fun l i _ h => application_by_id_not_found l i h,
   fun l i e hp he hid => environment_by_id_found l hp e he i hid,
   fun l i _ h => environment_by_id_not_found l i h,
   fun l i nb hp hnb hid => native_build_by_id_found l hp nb hnb i hid,
   fun l i _ h => native_build_by_id_not_found l i h⟩

/-- Claim C3, witness: a two-element application list with distinct ids
(hit and miss) and a missing environment and native build. -/
theorem claim_C3_witness :
    application_by_id [⟨"1", "A", "web"⟩, ⟨"2", "B", "ios"⟩] "2" = .ok ⟨"2", "B", "ios"⟩
  ∧ application_by_id [⟨"1", "A", "web"⟩, ⟨"2", "B", "ios"⟩] "9"
      = .error (.gatError "No application with ID 9")
  ∧ environment_by_id [] "e4" = .error (.gatError "No environment with ID e4")
  ∧ native_build_by_id [] "n5" = .error (.gatError "No native build with ID n5") := by
  refine ⟨?_, ?_, ?_, ?_⟩
  · exact claim_C3.1 [⟨"1", "A", "web"⟩, ⟨"2", "B", "ios"⟩] "2" ⟨"2", "B", "ios"⟩
      (by simp) (by simp) rfl
  · exact claim_C3.2.1 [⟨"1", "A", "web"⟩, ⟨"2", "B", "ios"⟩] "9" (by simp) (by simp)
  · exact claim_C3.2.2.2.1 [] "e4" (by simp) (by simp)
  · exact claim_C3.2.2.2.2.2 [] "n5" (by simp) (by simp)

/-- Claim C8: when the fetched collection holds two or more records with
the requested id, lookup-by-id returns the first match in collection
order (the head of the filtered list). -/
theorem claim_C8 (apps : List Application) (envs : List Environment) (i i2 : String)
    (a a2 : Application) (arest : List Application)
    (e e2 : Environment) (erest : List Environment)
    (ha : apps.filter (fun x => x.id == i) = a :: a2 :: arest)
    (he : envs.filter (fun x => x.id == i2) = e :: e2 :: erest) :
    application_by_id apps i = .ok a ∧ environment_by_id envs i2 = .ok e := by
  constructor
  · rw [application_by_id, find?_eq_head?_filter, ha]
    rfl
  · rw [environment_by_id, find?_eq_head?_filter, he]
    rfl

/-- Mapping a list of well-shaped test-case resource objects succeeds and
produces records with the resource's id and title and constant
importance/section/instructions. -/
theorem mapM_test_case_shape (pairs : List (String × String)) :
    (pairs.map (fun p => Json.obj [("id", Json.str p.1),
      ("attributes", Json.obj [("title", Json.str p.2)])])).mapM test_case_of_json
    = .ok (pairs.map (fun p => (⟨p.1, p.2, Option.none, Option.none, []⟩ : TestCase))) := by
  induction pairs with
  | nil => rfl
  | cons p ps ih =>
    simp only [List.map_cons, List.mapM_cons, ih]
    rfl

/-- Claim C4, counterexample.  A 200 JSON:API list response whose
test-case resource carries an "importance" attribute of "High" maps to a
record whose `importance` field is `None`, not "High": the mapper does
not reproduce every declared attribute field. -/
theorem claim_C4_counterexample :
    test_cases ⟨200, some "application/vnd.api+json", "",
      some (Json.obj [("data", Json.arr [Json.obj [("id", Json.str "7"),
        ("attributes", Json.obj [("title", Json.str "Login"),
          ("importance", Json.str "High"), ("section", Json.str "Auth")])]])])⟩
      = .ok [⟨"7", "Login", Option.none, Option.none, []⟩]
  ∧ jsonSubscript (Json.obj [("title", Json.str "Login"),
      ("importance", Json.str "High"), ("section", Json.str "Auth")]) "importance"
      = .ok (Json.str "High")
  ∧ (Option.none : Option String) ≠ some "High" :=
  ⟨rfl, rfl, by decide⟩

/-- Claim C4, amended.  The test-case list mapper reproduces the resource
object's id and title attribute on the record; the importance, section
and instructions fields are set to `None`, `None` and `[]` regardless of
whatever further attributes the server sends (per the source's TODO, they
are not yet populated). -/
theorem claim_C4_amended :
    (∀ (i t : String) (extraAttrs extraTop : List (String × Json)),
       test_case_of_json (Json.obj (("id", Json.str i) ::
         ("attributes", Json.obj (("title", Json.str t) :: extraAttrs)) :: extraTop))
         = .ok ⟨i, t, Option.none, Option.none, []⟩)
  ∧ (∀ (r : HttpResponse) (pairs : List (String × String)) (tl : List (String × Json)),
       call r = .ok (.json (Json.obj (("data",
         Json.arr (pairs.map (fun p => Json.obj [("id", Json.str p.1),
           ("attributes", Json.obj [("title", Json.str p.2)])]))) :: tl))) →
       test_cases r = .ok (pairs.map (fun p => ⟨p.1, p.2, Option.none, Option.none, []⟩))) := by
  constructor
  · intro i t extraAttrs extraTop
    rfl
  · intro r pairs tl hcall
    rw [test_cases, hcall]
    exact mapM_test_case_shape pairs

/-- Claim C4, witness: the amended mapping at a concrete resource object
(with an extra attribute) and a concrete two-element list response. -/
theorem claim_C4_witness :
    test_case_of_json (Json.obj [("id", Json.str "3"),
      ("attributes", Json.obj [("title", Json.str "Checkout"), ("importance", Json.str "Low")])])
      = .ok ⟨"3", "Checkout", Option.none, Option.none, []⟩
  ∧ test_cases ⟨200, some "application/vnd.api+json", "",
      some (Json.obj [("data", Json.arr [
        Json.obj [("id", Json.str "a"), ("attributes", Json.obj [("title", Json.str "T1")])],
        Json.obj [("id", Json.str "b"), ("attributes", Json.obj [("title", Json.str "T2")])]])])⟩
      = .ok [⟨"a", "T1", Option.none, Option.none, []⟩,
             ⟨"b", "T2", Option.none, Option.none, []⟩] := by
  constructor
  · exact claim_C4_amended.1 "3" "Checkout" [("importance", Json.str "Low")] []
  · exact claim_C4_amended.2 _ [("a", "T1"), ("b", "T2")] [] rfl

/-- Decoding the echoed encodings of plain instructions recovers each
content and assertion flag, with the echoed ids assigned positionally. -/
theorem roundtrip_instructions (ids : List String) (plain : List TestCaseInstruction)
    (hlen : ids.length = plain.length) :
    (List.zipWith echoInstruction ids
      (plain.map (fun p => encodeInstruction (.instr p)))).mapM decodeInstruction
    = .ok (List.zipWith (fun nid (p : TestCaseInstruction) =>
        (⟨nid, p.content, p.assertion⟩ : TestCaseInstruction)) ids plain) := by
  induction ids generalizing plain with
  | nil =>
    cases plain with
    | nil => rfl
    | cons p ps => simp at hlen
  | cons nid ids ih =>
    cases plain with
    | nil => simp at hlen
    | cons p ps =>
      simp only [List.map_cons, List.zipWith_cons_cons, List.mapM_cons,
        ih ps (by simpa using hlen)]
      rfl

/-- Reassigning ids over a zip preserves the projected contents. -/
theorem zipWith_instr_contentOf (ids : List String) (plain : List TestCaseInstruction)
    (hlen : ids.length = plain.length) :
    (List.zipWith (fun nid (p : TestCaseInstruction) =>
        Instruction.instr ⟨nid, p.content, p.assertion⟩) ids plain).map Instruction.contentOf
    = (plain.map Instruction.instr).map Instruction.contentOf := by
  induction ids generalizing plain with
  | nil =>
    cases plain with
    | nil => rfl
    | cons p ps => simp at hlen
  | cons nid ids ih =>
    cases plain with
    | nil => simp at hlen
    | cons p ps =>
      simp only [List.zipWith_cons_cons, List.map_cons, ih ps (by simpa using hlen)]
      rfl

/-- Reassigning ids over a zip preserves the projected assertion flags. -/
theorem zipWith_instr_assertionOf (ids : List String) (plain : List TestCaseInstruction)
    (hlen : ids.length = plain.length) :
    (List.zipWith (fun nid (p : TestCaseInstruction) =>
        Instruction.instr ⟨nid, p.content, p.assertion⟩) ids plain).map Instruction.assertionOf
    = (plain.map Instruction.instr).map Instruction.assertionOf := by
  induction ids generalizing plain with
  | nil =>
    cases plain with
    | nil => rfl
    | cons p ps => simp at hlen
  | cons nid ids ih =>
    cases plain with
    | nil => simp at hlen
    | cons p ps =>
      simp only [List.zipWith_cons_cons, List.map_cons, ih ps (by simpa using hlen)]
      rfl

/-- Claim C5: encoding a test case whose instructions are plain (no
embedded references) into the import payload and decoding the server's
echoed response yields a test case with the same number of instructions,
whose contents and assertion flags match the originals in order. -/
theorem claim_C5 (tc : TestCase) (tcId : String) (instrIds : List String)
    (plain : List TestCaseInstruction)
    (hplain : tc.instructions = plain.map Instruction.instr)
    (hlen : instrIds.length = plain.length) :
    decodeTestCase (echoTestCase tcId instrIds (encodeTestCase tc))
      = .ok ⟨tcId, tc.title, tc.importance, tc.section',
             List.zipWith (fun nid (p : TestCaseInstruction) =>
               Instruction.instr ⟨nid, p.content, p.assertion⟩) instrIds plain⟩
  ∧ (List.zipWith (fun nid (p : TestCaseInstruction) =>
       Instruction.instr ⟨nid, p.content, p.assertion⟩) instrIds plain).length
      = tc.instructions.length
  ∧ (List.zipWith (fun nid (p : TestCaseInstruction) =>
       Instruction.instr ⟨nid, p.content, p.assertion⟩) instrIds plain).map
         Instruction.contentOf
      = tc.instructions.map Instruction.contentOf
  ∧ (List.zipWith (fun nid (p : TestCaseInstruction) =>
       Instruction.instr ⟨nid, p.content, p.assertion⟩) instrIds plain).map
         Instruction.assertionOf
      = tc.instructions.map Instruction.assertionOf
  ∧ (∀ (r : HttpResponse),
       call r = .ok (.json (Json.obj [("data",
         Json.arr [echoTestCase tcId instrIds (encodeTestCase tc)])])) →
       create_test_cases_decode r
         = .ok [⟨tcId, tc.title, tc.importance, tc.section',
                 List.zipWith (fun nid (p : TestCaseInstruction) =>
                   Instruction.instr ⟨nid, p.content, p.assertion⟩) instrIds plain⟩]) := by
  have hdec : decodeTestCase (echoTestCase tcId instrIds (encodeTestCase tc))
      = .ok ⟨tcId, tc.title, tc.importance, tc.section',
             List.zipWith (fun nid (p : TestCaseInstruction) =>
               Instruction.instr ⟨nid, p.content, p.assertion⟩) instrIds plain⟩ := by
    rw [encodeTestCase, hplain]
    simp only [List.map_map]
    rw [echoTestCase]
    rcases tc with ⟨i0, t0, im0, se0, ins0⟩
    have hmain := roundtrip_instructions instrIds plain hlen
    simp only [List.mapM] at hmain
    cases im0 <;> cases se0 <;>
      simp [decodeTestCase, optStrJson, ok_bind, jsonSubscript, List.lookup,
        asString, asOptionalString, jsonIter, Function.comp_def, hmain, List.map_zipWith]
  refine ⟨hdec, ?_, ?_, ?_, ?_⟩
  · rw [hplain]
    simp [List.length_zipWith, hlen]
  · exact zipWith_instr_contentOf instrIds plain hlen |>.trans (by rw [hplain])
  · exact zipWith_instr_assertionOf instrIds plain hlen |>.trans (by rw [hplain])
  · intro r hcall
    rw [create_test_cases_decode, hcall]
    show (List.mapM decodeTestCase [echoTestCase tcId instrIds (encodeTestCase tc)]) = _
    simp [List.mapM_cons, List.mapM.loop, hdec]

/-- Claim C5, witness: a two-instruction test case encoded, echoed with
fresh ids and decoded. -/
theorem claim_C5_witness :
    decodeTestCase (echoTestCase "9" ["a", "b"] (encodeTestCase
      ⟨"new", "Login", some "Medium", Option.none,
       [.instr ⟨"new", "open page", false⟩, .instr ⟨"new", "is it ok?", true⟩]⟩))
      = .ok ⟨"9", "Login", some "Medium", Option.none,
             [.instr ⟨"a", "open page", false⟩, .instr ⟨"b", "is it ok?", true⟩]⟩
  ∧ [Instruction.instr ⟨"a", "open page", false⟩,
     Instruction.instr ⟨"b", "is it ok?", true⟩].map Instruction.contentOf
      = [Instruction.instr ⟨"new", "open page", false⟩,
         Instruction.instr ⟨"new", "is it ok?", true⟩].map Instruction.contentOf := by
  have h := claim_C5
    ⟨"new", "Login", some "Medium", Option.none,
     [.instr ⟨"new", "open page", false⟩, .instr ⟨"new", "is it ok?", true⟩]⟩
    "9" ["a", "b"] [⟨"new", "open page", false⟩, ⟨"new", "is it ok?", true⟩]
    rfl rfl
  exact ⟨h.1, h.2.2.1⟩

/-- Claim C6, counterexample.  A 400 response whose body is not valid
JSON (an HTML error page, say) raises the JSON decoder's error, not the
uniform `GatError`. -/
theorem claim_C6_counterexample :
    call ⟨400, some "text/html", "<h1>Server Error</h1>", Option.none⟩
      = .error .jsonDecodeError
  ∧ PyError.isGatError .jsonDecodeError = false :=
  ⟨rfl, rfl⟩

/-- Claim C6, amended.  Failures raise the uniform `GatError` in these
cases: a non-2xx/204 response with status outside the 4xx range; a 4xx
response whose body parses as JSON without an "errors" member; a 4xx
response whose parsed body has an "errors" array whose first element is
an object bearing a "title" member (whatever its value, and whatever
further members — e.g. a detail — accompany it); and the client-side
not-found lookups.  A 4xx response whose body does not parse as JSON
instead raises the JSON decoder's error (the counterexample); every
other failing response still raises an error, though not necessarily
`GatError`. -/
theorem claim_C6_amended :
    (∀ (r : HttpResponse), ¬(r.status = 200 ∨ r.status = 201) → r.status ≠ 204 →
       ¬(400 ≤ r.status ∧ r.status < 500) →
       call r = .error (.gatError ("Call failed: " ++ toString r.status)))
  ∧ (∀ (r : HttpResponse) (b : Json), 400 ≤ r.status → r.status < 500 →
       r.json = some b → pythonIn "errors" b = .ok false →
       call r = .error (.gatError ("Call failed: " ++ toString r.status)))
  ∧ (∀ (r : HttpResponse) (b e0 title : Json) (rest : List Json),
       400 ≤ r.status → r.status < 500 → r.json = some b →
       pythonIn "errors" b = .ok true →
       jsonSubscript b "errors" = .ok (.arr (e0 :: rest)) →
       jsonSubscript e0 "title" = .ok title →
       raisesGatError (call r) = true)
  ∧ (∀ (r : HttpResponse), ¬(r.status = 200 ∨ r.status = 201) → r.status ≠ 204 →
       isErr (call r) = true)
  ∧ (∀ (l : List Application) (i : String), (∀ a ∈ l, a.id ≠ i) →
       application_by_id l i = .error (.gatError ("No application with ID " ++ i)))
  ∧ (∀ (l : List Environment) (i : String), (∀ e ∈ l, e.id ≠ i) →
       environment_by_id l i = .error (.gatError ("No environment with ID " ++ i)))
  ∧ (∀ (l : List NativeBuild) (i : String), (∀ b ∈ l, b.id ≠ i) →
       native_build_by_id l i = .error (.gatError ("No native build with ID " ++ i))) := by
  refine ⟨?_, ?_, ?_, ?_,
    fun l i h => application_by_id_not_found l i h,
    fun l i h => environment_by_id_not_found l i h,
    fun l i h => native_build_by_id_not_found l i h⟩
  · intro r hn2xx hn204 hn4xx
    rw [call, if_neg hn2xx, if_neg hn204, if_neg hn4xx]
  · intro r b h400 h500 hjson hin
    rw [call, if_neg (by omega), if_neg (by omega), if_pos (And.intro h400 h500), hjson]
    show clientErrorResult r.status b = _
    rw [clientErrorResult, hin]
  · intro r b e0 title rest h400 h500 hjson hin herrs htitle
    rw [call, if_neg (by omega), if_neg (by omega), if_pos (And.intro h400 h500), hjson]
    show raisesGatError (clientErrorResult r.status b) = true
    rw [clientErrorResult, hin]
    simp only [herrs, jsonIndex0, htitle]
    cases e0 with
    | null => simp [jsonSubscript] at htitle
    | bool b2 => simp [jsonSubscript] at htitle
    | num n2 => simp [jsonSubscript] at htitle
    | str s2 => simp [jsonSubscript] at htitle
    | arr xs => simp [jsonSubscript] at htitle
    | obj kvs =>
      simp only [pythonIn]
      cases hany : kvs.any (fun kv => kv.1 == "detail") with
      | false => rfl
      | true =>
        rcases lookup_of_any hany with ⟨v, hv⟩
        simp only [jsonSubscript, hv]
        rfl
  · intro r hn2xx hn204
    simp only [call, if_neg hn2xx, if_neg hn204]
    by_cases h4 : 400 ≤ r.status ∧ r.status < 500
    · rw [if_pos h4]
      cases hj : r.json with
      | none => rfl
      | some b => exact clientErrorResult_isErr r.status b
    · rw [if_neg h4]
      rfl

/-- Claim C6, witness: the amended error law at a concrete redirect, a
4xx without an "errors" member, a 4xx whose first error has a title (and
a non-string detail), a malformed 4xx, and empty lookups. -/
theorem claim_C6_witness :
    call ⟨301, some "text/html", "", Option.none⟩
      = .error (.gatError "Call failed: 301")
  ∧ call ⟨403, some "application/vnd.api+json", "", some (Json.obj [])⟩
      = .error (.gatError "Call failed: 403")
  ∧ raisesGatError (call ⟨404, some "application/vnd.api+json", "",
        some (Json.obj [("errors", Json.arr [Json.obj [("title", Json.str "Nope"),
          ("detail", Json.num 42)]])])⟩) = true
  ∧ isErr (call ⟨418, some "application/vnd.api+json", "",
        some (Json.obj [("errors", Json.arr [])])⟩) = true
  ∧ application_by_id [] "x1" = .error (.gatError "No application with ID x1")
  ∧ environment_by_id [] "x2" = .error (.gatError "No environment with ID x2")
  ∧ native_build_by_id [] "x3" = .error (.gatError "No native build with ID x3") := by
  refine ⟨?_, ?_, ?_, ?_, ?_, ?_, ?_⟩
  · exact claim_C6_amended.1 ⟨301, some "text/html", "", Option.none⟩
      (by decide) (by decide) (by decide)
  · exact claim_C6_amended.2.1 ⟨403, some "application/vnd.api+json", "", some (Json.obj [])⟩
      (Json.obj []) (by decide) (by decide) rfl rfl
  · exact claim_C6_amended.2.2.1
      ⟨404, some "application/vnd.api+json", "",
        some (Json.obj [("errors", Json.arr [Json.obj [("title", Json.str "Nope"),
          ("detail", Json.num 42)]])])⟩
      (Json.obj [("errors", Json.arr [Json.obj [("title", Json.str "Nope"),
        ("detail", Json.num 42)]])])
      (Json.obj [("title", Json.str "Nope"), ("detail", Json.num 42)])
      (Json.str "Nope") [] (by decide) (by decide) rfl rfl rfl rfl
  · exact claim_C6_amended.2.2.2.1
      ⟨418, some "application/vnd.api+json", "",
        some (Json.obj [("errors", Json.arr [])])⟩
      (by decide) (by decide)
  · exact claim_C6_amended.2.2.2.2.1 [] "x1" (by simp)
  · exact claim_C6_amended.2.2.2.2.2.1 [] "x2" (by simp)
  · exact claim_C6_amended.2.2.2.2.2.2 [] "x3" (by simp)

/-- Claim C7: the data-layer records are immutable (`frozen=True`
dataclasses, rendered here as pure values), and the update operations
build a brand-new record entirely from the PATCH response document: the
result neither reads nor alters the record being "updated", as witnessed
by its independence from that argument. -/
theorem claim_C7 :
    (∀ (app : Application) (env env' : Environment) (nm u : String)
       (r : HttpResponse) (si sn su : String) (tl : List (String × Json)),
       call r = .ok (.json (Json.obj (("data", Json.obj [("id", Json.str si),
         ("attributes", Json.obj [("name", Json.str sn), ("url", Json.str su)])]) :: tl))) →
       update_environment app env nm u r = .ok ⟨si, sn, su⟩
       ∧ update_environment app env' nm u r = update_environment app env nm u r)
  ∧ (∀ (app : Application) (nb nb' : NativeBuild) (nm : String)
       (r : HttpResponse) (si sn ss : String) (tl : List (String × Json)),
       call r = .ok (.json (Json.obj (("data", Json.obj [("id", Json.str si),
         ("attributes", Json.obj [("name", Json.str sn),
           ("signingStatus", Json.str ss)])]) :: tl))) →
       update_native_build app nb nm r = .ok ⟨si, sn, Option.none, Option.none, some ss⟩
       ∧ update_native_build app nb' nm r = update_native_build app nb nm r) := by
  constructor
  · intro app env env' nm u r si sn su tl hcall
    have key : ∀ env0 : Environment,
        update_environment app env0 nm u r = .ok ⟨si, sn, su⟩ := by
      intro env0
      rw [update_environment, hcall]
      rfl
    exact ⟨key env, (key env').trans (key env).symm⟩
  · intro app nb nb' nm r si sn ss tl hcall
    have key : ∀ nb0 : NativeBuild,
        update_native_build app nb0 nm r = .ok ⟨si, sn, Option.none, Option.none, some ss⟩ := by
      intro nb0
      rw [update_native_build, hcall]
      rfl
    exact ⟨key nb, (key nb').trans (key nb).symm⟩

/-- Claim C7, witness: updates at concrete records and responses; the
result is built from the response alone. -/
theorem claim_C7_witness :
    update_environment ⟨"a1", "App", "web"⟩ ⟨"e1", "old", "http://old"⟩ "new" "http://new"
      ⟨200, some "application/vnd.api+json", "",
        some (Json.obj [("data", Json.obj [("id", Json.str "e1"),
          ("attributes", Json.obj [("name", Json.str "new"), ("url", Json.str "http://new")])])])⟩
      = .ok ⟨"e1", "new", "http://new"⟩
  ∧ update_native_build ⟨"a1", "App", "web"⟩
      ⟨"n1", "old", Option.none, Option.none, Option.none⟩ "renamed"
      ⟨200, some "application/vnd.api+json", "",
        some (Json.obj [("data", Json.obj [("id", Json.str "n1"),
          ("attributes", Json.obj [("name", Json.str "renamed"),
            ("signingStatus", Json.str "signed")])])])⟩
      = .ok ⟨"n1", "renamed", Option.none, Option.none, some "signed"⟩ := by
  constructor
  · exact (claim_C7.1 ⟨"a1", "App", "web"⟩ ⟨"e1", "old", "http://old"⟩
      ⟨"e1", "old", "http://old"⟩ "new" "http://new"
      ⟨200, some "application/vnd.api+json", "",
        some (Json.obj [("data", Json.obj [("id", Json.str "e1"),
          ("attributes", Json.obj [("name", Json.str "new"),
            ("url", Json.str "http://new")])])])⟩
      "e1" "new" "http://new" [] rfl).1
  · exact (claim_C7.2 ⟨"a1", "App", "web"⟩
      ⟨"n1", "old", Option.none, Option.none, Option.none⟩
      ⟨"n1", "old", Option.none, Option.none, Option.none⟩ "renamed"
      ⟨200, some "application/vnd.api+json", "",
        some (Json.obj [("data", Json.obj [("id", Json.str "n1"),
          ("attributes", Json.obj [("name", Json.str "renamed"),
            ("signingStatus", Json.str "signed")])])])⟩
      "n1" "renamed" "signed" [] rfl).1

/-- Claim C9: an instruction argument starting with "embedded_id="
becomes an embedded test-case reference whose id is the argument with
every occurrence of "embedded_id=" removed; any other argument becomes a
new instruction whose assertion flag is set exactly when the text ends
with a question mark. -/
theorem claim_C9 (s : String) :
    (pyStartsWith s "embedded_id=" = true →
       parse_instruction_text s = .embedded ⟨pyReplaceStr s "embedded_id=" ""⟩)
  ∧ (pyStartsWith s "embedded_id=" = false →
       parse_instruction_text s = .instr ⟨"new", s, pyEndsWith s "?"⟩) := by
  constructor
  · intro h
    rw [parse_instruction_text, if_pos h]
  · intro h
    rw [parse_instruction_text, if_neg (by rw [h]; exact Bool.false_ne_true)]

/-- Claim C9, witness: one embedded reference (with a repeated marker)
and one assertion instruction. -/
theorem claim_C9_witness :
    parse_instruction_text "embedded_id=abc" = .embedded ⟨"abc"⟩
  ∧ parse_instruction_text "embedded_id=embedded_id=xy" = .embedded ⟨"xy"⟩
  ∧ parse_instruction_text "click the button?" = .instr ⟨"new", "click the button?", true⟩
  ∧ parse_instruction_text "open the page" = .instr ⟨"new", "open the page", false⟩ := by
  refine ⟨?_, ?_, ?_, ?_⟩
  · exact ((claim_C9 "embedded_id=abc").1 (by decide)).trans (by decide)
  · exact ((claim_C9 "embedded_id=embedded_id=xy").1 (by decide)).trans (by decide)
  · exact ((claim_C9 "click the button?").2 (by decide)).trans (by decide)
  · exact ((claim_C9 "open the page").2 (by decide)).trans (by decide)

/-- Claim C10: the timestamp parser returns `None` for a null or empty
input; a non-empty string is parsed (via the abstract
`datetime.fromisoformat`) after replacing every "Z" with "+00:00"; and a
batch summary whose startTime and finishTime attributes are null maps to
a record whose time fields are `None`. -/
theorem claim_C10 (fromiso : String → Except PyError PyDateTime) :
    parse_time fromiso Json.null = .ok Option.none
  ∧ parse_time fromiso (Json.str "") = .ok Option.none
  ∧ (∀ (s : String) (d : PyDateTime), s ≠ "" →
       fromiso (pyReplaceStr s "Z" "+00:00") = .ok d →
       parse_time fromiso (Json.str s) = .ok (some d))
  ∧ (∀ (r : HttpResponse) (i n appId envId : String) (credits testers : Int),
       call r = .ok (.json (Json.obj [("data", Json.obj [
         ("id", Json.str i),
         ("attributes", Json.obj [
           ("name", Json.str n),
           ("startTime", Json.null),
           ("finishTime", Json.null),
           ("testCaseCredits", Json.num credits),
           ("testersInvolved", Json.num testers)]),
         ("relationships", Json.obj [
           ("application", Json.obj [("data", Json.obj [("id", Json.str appId)])]),
           ("environment", Json.obj [("data", Json.obj [("id", Json.str envId)])])])]),
         ("included", Json.arr [Json.obj [("data", Json.arr [])]])])) →
       test_case_runs_batch_summary fromiso r
         = .ok ⟨i, n, Option.none, Option.none, credits, testers, appId, envId, []⟩) := by
  refine ⟨rfl, rfl, ?_, ?_⟩
  · intro s d hs hfi
    rw [parse_time, if_pos]
    · rw [hfi]
      rfl
    · have he : s.isEmpty = false := by
        cases he0 : s.isEmpty
        · rfl
        · exact absurd ((String.isEmpty_iff s).mp he0) hs
      simp [pyTruthy, he]
  · intro r i n appId envId credits testers hcall
    rw [test_case_runs_batch_summary, hcall]
    rfl

/-- Claim C10, witness: a concrete `fromisoformat` stand-in, a Z-suffixed
timestamp, and a concrete summary response with null times. -/
theorem claim_C10_witness :
    parse_time (fun s => .ok ⟨s⟩) Json.null = .ok Option.none
  ∧ parse_time (fun s => .ok ⟨s⟩) (Json.str "2024-05-06T07:08:09Z")
      = .ok (some ⟨"2024-05-06T07:08:09+00:00"⟩)
  ∧ test_case_runs_batch_summary (fun s => .ok ⟨s⟩)
      ⟨200, some "application/vnd.api+json", "",
        some (Json.obj [("data", Json.obj [
          ("id", Json.str "b1"),
          ("attributes", Json.obj [
            ("name", Json.str "Nightly"),
            ("startTime", Json.null),
            ("finishTime", Json.null),
            ("testCaseCredits", Json.num 12),
            ("testersInvolved", Json.num 3)]),
          ("relationships", Json.obj [
            ("application", Json.obj [("data", Json.obj [("id", Json.str "a1")])]),
            ("environment", Json.obj [("data", Json.obj [("id", Json.str "e1")])])])]),
          ("included", Json.arr [Json.obj [("data", Json.arr [])]])])⟩
      = .ok ⟨"b1", "Nightly", Option.none, Option.none, 12, 3, "a1", "e1", []⟩ := by
  refine ⟨?_, ?_, ?_⟩
  · exact (claim_C10 (fun s => .ok ⟨s⟩)).1
  · exact ((claim_C10 (fun s => .ok ⟨s⟩)).2.2.1 "2024-05-06T07:08:09Z"
      ⟨"2024-05-06T07:08:09+00:00"⟩ (by decide) rfl).trans rfl
  · exact (claim_C10 (fun s => .ok ⟨s⟩)).2.2.2 _ "b1" "Nightly" "a1" "e1" 12 3 rfl

/-- Claim C8, witness: duplicated ids; the first occurrence wins. -/
theorem claim_C8_witness :
    application_by_id [⟨"1", "first", "web"⟩, ⟨"1", "second", "ios"⟩] "1"
      = .ok ⟨"1", "first", "web"⟩
  ∧ environment_by_id [⟨"7", "dev", "http://a"⟩, ⟨"7", "prod", "http://b"⟩] "7"
      = .ok ⟨"7", "dev", "http://a"⟩ :=
  claim_C8 [⟨"1", "first", "web"⟩, ⟨"1", "second", "ios"⟩]
    [⟨"7", "dev", "http://a"⟩, ⟨"7", "prod", "http://b"⟩] "1" "7"
    ⟨"1", "first", "web"⟩ ⟨"1", "second", "ios"⟩ []
    ⟨"7", "dev", "http://a"⟩ ⟨"7", "prod", "http://b"⟩ []
    (by rfl) (by rfl)

end Gat

